import Mathlib

/-!
Shallow embedding of `src/src/smalloc.cc` (the node `smalloc` module: external
buffer lifecycle manager, bounds-checked copy/slice, external memory accounting).

Machine integers: `size_t` arithmetic is modelled as `Nat` with explicit
`% u64` where the source multiplies or subtracts `size_t` values;
`Uint32Value` marshalling is modelled as `% u32`.  Fallible operations return
`Except JsError`: thrown JS errors (`ThrowTypeError`, `ThrowRangeError`,
`ThrowError`), failed `assert(...)` (process abort), `node::FatalError`
(process abort), and C++ allocation failure of `operator new[]`
(`std::bad_alloc`) are distinct constructors.
-/

def u32 : Nat := 4294967296

def u64 : Nat := 18446744073709551616

/-- The `v8::ExternalArrayType` tags handled by the `switch` in
`ExternalArraySize` (smalloc.cc lines 71-93), plus one representative for any
unrecognized tag (the `switch` falls through to `return 0`, and V8 reports
`static_cast<ExternalArrayType>(-1)` for objects without external array
data). -/
inductive ExternalArrayType where
  | externalUnsignedByteArray
  | externalByteArray
  | externalShortArray
  | externalUnsignedShortArray
  | externalIntArray
  | externalUnsignedIntArray
  | externalFloatArray
  | externalDoubleArray
  | externalPixelArray
  | unknownArrayType
deriving DecidableEq, Repr

/-- From smalloc.cc lines 71-93: size of external array type, or 0 if unrecognized. -/
def ExternalArraySize : ExternalArrayType → Nat
  | .externalUnsignedByteArray => 1
  | .externalByteArray => 1
  | .externalShortArray => 2
  | .externalUnsignedShortArray => 2
  | .externalIntArray => 4
  | .externalUnsignedIntArray => 4
  | .externalFloatArray => 4
  | .externalDoubleArray => 8
  | .externalPixelArray => 1
  | .unknownArrayType => 0

/-- Modelled from the spec: the constant `kMaxLength` is declared in
`smalloc.h`, which is not under `src/`.  The spec describes it as "the maximum
permitted byte length for a single allocation", exported to callers through
`Uint32::NewFromUnsigned` (smalloc.cc line 510), so it fits in 32 bits.  We
use the reference header's value `0x3fffffff`. -/
def kMaxLength : Nat := 0x3fffffff

/-- Value of `sizeof(CallbackInfo)` for `struct CallbackInfo` (smalloc.cc
lines 57-61): a `void*`, a `FreeCallback` function pointer and one
`Persistent<Object>` handle word, i.e. three pointer-sized fields on LP64. -/
def sizeofCallbackInfo : Nat := 24

/-- The failure modes occurring in smalloc.cc.  `contractAssert` is a failed
`assert(...)` and `fatalError` is `node::FatalError`; both abort the process
rather than surface to the caller.  `cppBadAlloc` is the C++ runtime failure
of an unchecked `new char[length]`.  `useAfterFree` marks the dereference of
a `CallbackInfo` that was already `delete`d. -/
inductive JsError where
  | typeError (msg : String)
  | rangeError (msg : String)
  | throwError (msg : String)
  | contractAssert (msg : String)
  | fatalError (location msg : String)
  | cppBadAlloc
  | useAfterFree
deriving DecidableEq, Repr

deriving instance DecidableEq for Except

/-! ## BoundsCheckedTransfer: CopyOnto (smalloc.cc lines 96-168) -/

/-- Arguments of `copyOnto(source, source_start, dest, dest_start, copy_length)`
after the `IsObject` marshalling checks: the two wrappers' external-array
state as V8 reports it (`Has…`, data bytes, element count, element type) and
the three raw index arguments (converted with `Uint32Value`, i.e. `% u32`,
inside `CopyOnto`). -/
structure CopyArgs where
  sourceHas : Bool
  destHas : Bool
  sourceBytes : List Nat
  destBytes : List Nat
  sourceCount : Nat
  sourceType : ExternalArrayType
  destCount : Nat
  destType : ExternalArrayType
  sourceStart : Nat
  destStart : Nat
  copyLength : Nat
deriving DecidableEq, Repr

/-- From smalloc.cc lines 132-149: the element-width scaling phase of `CopyOnto`.
Runs only when `source_size != 1 && dest_size != 1`; inside it, unknown types
are rejected first, then each `size_t` product is checked for wraparound by
comparing the product against one operand, then `source_length`,
`copy_length` (both by `source_size`) and `dest_length` (by `dest_size`) are
scaled.  Returns the (possibly scaled) `(source_length, copy_length,
dest_length)`. -/
def ScalePhase (sourceLength destLength copyLength sourceSize destSize : Nat) :
    Except JsError (Nat × Nat × Nat) :=
  if sourceSize ≠ 1 ∧ destSize ≠ 1 then
    if sourceSize = 0 then .error (.typeError "unknown source external array type")
    else if destSize = 0 then .error (.typeError "unknown dest external array type")
    else if sourceLength * sourceSize % u64 < sourceLength then
      .error (.rangeError "source_length * source_size overflow")
    else if copyLength * sourceSize % u64 < copyLength then
      .error (.rangeError "copy_length * source_size overflow")
    else if destLength * destSize % u64 < destLength then
      .error (.rangeError "dest_length * dest_size overflow")
    else .ok (sourceLength * sourceSize % u64, copyLength * sourceSize % u64,
              destLength * destSize % u64)
  else .ok (sourceLength, copyLength, destLength)

/-- From smalloc.cc line 167: `memmove(dest_data + dest_start, source_data +
source_start, copy_length)` over byte lists.  The source and destination
blocks are distinct allocations here, so overlap-safety of `memmove` is not
load-bearing. -/
def memmoveBytes (destBytes sourceBytes : List Nat) (destStart sourceStart n : Nat) :
    List Nat :=
  destBytes.take destStart ++ (sourceBytes.drop sourceStart).take n
    ++ destBytes.drop (destStart + n)

/-- Result of a `copyOnto` call: the error thrown (if any), the destination
bytes after the call, and the external-memory accountant after the call
(`CopyOnto` contains no `AdjustAmountOfExternalAllocatedMemory` call, so the
accountant is passed through). -/
structure CopyOutcome where
  err : Option JsError
  destBytes : List Nat
  acct : Int
deriving DecidableEq, Repr

/-- From smalloc.cc lines 96-168, `CopyOnto` after the `IsObject` argument-shape
checks: the `Has…ExternalArrayData` checks, `Uint32Value` conversion of the
three index arguments, the scaling phase, the six range checks in source
order, and finally the `memmove`.  The `source_start + copy_length` sums
cannot wrap `size_t` because both operands are below `2^35` at that point. -/
def CopyOnto (a : CopyArgs) (acct : Int) : CopyOutcome :=
  if ¬ a.sourceHas then
    ⟨some (.throwError "source has no external array data"), a.destBytes, acct⟩
  else if ¬ a.destHas then
    ⟨some (.throwError "dest has no external array data"), a.destBytes, acct⟩
  else
    match ScalePhase a.sourceCount a.destCount (a.copyLength % u32)
        (ExternalArraySize a.sourceType) (ExternalArraySize a.destType) with
    | .error e => ⟨some e, a.destBytes, acct⟩
    | .ok (sourceLength, copyLength, destLength) =>
      if sourceLength < copyLength then
        ⟨some (.rangeError "copy_length > source_length"), a.destBytes, acct⟩
      else if destLength < copyLength then
        ⟨some (.rangeError "copy_length > dest_length"), a.destBytes, acct⟩
      else if sourceLength < a.sourceStart % u32 then
        ⟨some (.rangeError "source_start > source_length"), a.destBytes, acct⟩
      else if destLength < a.destStart % u32 then
        ⟨some (.rangeError "dest_start > dest_length"), a.destBytes, acct⟩
      else if sourceLength < a.sourceStart % u32 + copyLength then
        ⟨some (.rangeError "source_start + copy_length > source_length"), a.destBytes, acct⟩
      else if destLength < a.destStart % u32 + copyLength then
        ⟨some (.rangeError "dest_start + copy_length > dest_length"), a.destBytes, acct⟩
      else
        ⟨none, memmoveBytes a.destBytes a.sourceBytes (a.destStart % u32)
          (a.sourceStart % u32) copyLength, acct⟩

/-- Follows the wording of claim C2 (spec §4.2): the six bounds inequalities
in their stated order, returning the `RangeError` named after the first
violated one.  Written from the spec's words, to be compared with the
behaviour of `CopyOnto`. -/
def firstViolationSpec (sourceLength destLength sourceStart destStart copyLength : Nat) :
    Option JsError :=
  if ¬ (copyLength ≤ sourceLength) then some (.rangeError "copy_length > source_length")
  else if ¬ (copyLength ≤ destLength) then some (.rangeError "copy_length > dest_length")
  else if ¬ (sourceStart ≤ sourceLength) then some (.rangeError "source_start > source_length")
  else if ¬ (destStart ≤ destLength) then some (.rangeError "dest_start > dest_length")
  else if ¬ (sourceStart + copyLength ≤ sourceLength) then
    some (.rangeError "source_start + copy_length > source_length")
  else if ¬ (destStart + copyLength ≤ destLength) then
    some (.rangeError "dest_start + copy_length > dest_length")
  else none

/-! ## BoundsCheckedTransfer: SliceOnto (smalloc.cc lines 174-210) -/

/-- From smalloc.cc lines 174-210, `SliceOnto`: asserts the source has external
array data and the destination has none, reads the source data pointer,
element count and type, asserts the element width is nonzero, converts
`start`/`end` with `Uint32Value`, computes `length = end - start` in `size_t`
(wrapping), scales `length` (only) by the element width when the width
exceeds one — with a wraparound assert — then asserts `source_data != NULL ||
length == 0`, `end <= source_len`, `start <= end`, and finally installs
`(source_data + start, source_type, length)` on the destination wrapper.  No
bytes are copied.  Returns the destination wrapper's new external-array
triple `(data, type, element count)`. -/
def SliceOnto (sourceHas destHas : Bool) (sourceData : Option Nat) (sourceLen : Nat)
    (sourceType : ExternalArrayType) (start finish : Nat) :
    Except JsError (Option Nat × ExternalArrayType × Nat) :=
  if ¬ sourceHas then
    .error (.contractAssert "source->HasIndexedPropertiesInExternalArrayData()")
  else if destHas then
    .error (.contractAssert "!dest->HasIndexedPropertiesInExternalArrayData()")
  else if ¬ (0 < ExternalArraySize sourceType) then
    .error (.contractAssert "source_size != 0")
  else
    if 1 < ExternalArraySize sourceType ∧
        ¬ ((finish % u32 + u64 - start % u32) % u64 ≤
          ((finish % u32 + u64 - start % u32) % u64 * ExternalArraySize sourceType) % u64) then
      .error (.contractAssert "length * source_size >= length")
    else if ¬ (sourceData.isSome ∨
        (if 1 < ExternalArraySize sourceType then
          ((finish % u32 + u64 - start % u32) % u64 * ExternalArraySize sourceType) % u64
        else (finish % u32 + u64 - start % u32) % u64) = 0) then
      .error (.contractAssert "source_data != NULL || length == 0")
    else if ¬ (finish % u32 ≤ sourceLen) then
      .error (.contractAssert "end <= source_len")
    else if ¬ (start % u32 ≤ finish % u32) then
      .error (.contractAssert "start <= end")
    else
      .ok (sourceData.map (fun p => p + start % u32), sourceType,
        if 1 < ExternalArraySize sourceType then
          ((finish % u32 + u64 - start % u32) % u64 * ExternalArraySize sourceType) % u64
        else (finish % u32 + u64 - start % u32) % u64)

/-! ## BufferLifecycleManager (smalloc.cc lines 215-435)

The wrapper-visible state (`WrapperState`) models one managed object: its V8
external-array-data slot (a triple of data pointer, element type and element
count — present but zeroed after `dispose`), the hidden `smalloc_p`
`External` holding the `CallbackInfo*`, whether that `CallbackInfo` is still
live (it is `delete`d by `TargetFreeCallback` and never detached from the
hidden slot), and the pending weak registration.  The process-wide state
(`MachineState`) models the isolate accountant, the
`env->using_smalloc_alloc_cb()` flag, a bump allocator supplying fresh
pointers, the list of pointers passed to `free`, the number of
release-policy invocations (`free` of a payload, or a custom `FreeCallback`
call) and the number of negative accountant adjustments. -/

/-- The weak-reference registration armed by the two allocation paths:
`SetWeak(data, TargetCallback)` or `SetWeak(cb_info, TargetFreeCallback)`.
V8 invokes a weak callback at most once per registration. -/
inductive WeakReg where
  | noReg
  | weakDefault (param : Option Nat)
  | weakCustom
deriving DecidableEq, Repr

structure WrapperState where
  slot : Option (Option Nat × ExternalArrayType × Nat)
  hiddenCb : Option Nat
  cbAlive : Bool
  weak : WeakReg
deriving DecidableEq, Repr

def freshWrapper : WrapperState := ⟨none, none, false, .noReg⟩

structure MachineState where
  acct : Int
  usingCb : Bool
  nextPtr : Nat
  freed : List Nat
  releases : Nat
  negAdjusts : Nat
deriving DecidableEq, Repr

def initMachine (a : Int) : MachineState := ⟨a, false, 0, [], 0, 0⟩

/-- `obj->GetIndexedPropertiesExternalArrayData()`: NULL when the object has
no external array data. -/
def GetExternalArrayData (w : WrapperState) : Option Nat :=
  match w.slot with
  | some (d, _, _) => d
  | none => none

/-- `obj->GetIndexedPropertiesExternalArrayDataLength()`: 0 when the object
has no external array data. -/
def GetExternalArrayDataLength (w : WrapperState) : Nat :=
  match w.slot with
  | some (_, _, n) => n
  | none => 0

/-- `obj->GetIndexedPropertiesExternalArrayDataType()`: V8 reports
`static_cast<ExternalArrayType>(-1)` (an unrecognized tag, width 0) when the
object has no external array data. -/
def GetExternalArrayDataType (w : WrapperState) : ExternalArrayType :=
  match w.slot with
  | some (_, t, _) => t
  | none => .unknownArrayType

/-- From smalloc.cc lines 433-435: `HasExternalData(env, obj)` is
`obj->HasIndexedPropertiesInExternalArrayData()`, true whenever the slot is
installed — including the zeroed `(NULL, kExternalUnsignedByteArray, 0)`
state that `AllocDispose` leaves behind. -/
def HasExternalData (w : WrapperState) : Bool := w.slot.isSome

/-- From smalloc.cc lines 265-278, `Alloc(env, obj, data, length, type)`: asserts
the wrapper has no external array data, adjusts the accountant by `+length`,
arms `SetWeak(data, TargetCallback)`, and installs `(data, type, length /
type_size)` on the wrapper. -/
def AllocAttach (w : WrapperState) (m : MachineState) (data : Option Nat)
    (length : Nat) (ty : ExternalArrayType) :
    Except JsError (WrapperState × MachineState) :=
  if HasExternalData w then
    .error (.contractAssert "!obj->HasIndexedPropertiesInExternalArrayData()")
  else
    .ok ({ w with slot := some (data, ty, length / ExternalArraySize ty),
                  weak := .weakDefault data },
         { m with acct := m.acct + (length : Int) })

/-- From smalloc.cc lines 243-262, `Alloc(env, obj, length, type)`: asserts
`length <= kMaxLength` and `type_size > 0`; a zero length attaches a NULL
block without calling `malloc`; otherwise `malloc(length)` either yields a
fresh pointer or, on failure, calls `node::FatalError` with the diagnostic
below.  `mallocOk` is the allocator oracle. -/
def AllocMalloc (w : WrapperState) (m : MachineState) (length : Nat)
    (ty : ExternalArrayType) (mallocOk : Bool) :
    Except JsError (WrapperState × MachineState) :=
  if ¬ (length ≤ kMaxLength) then .error (.contractAssert "length <= kMaxLength")
  else if ¬ (0 < ExternalArraySize ty) then .error (.contractAssert "type_size > 0")
  else if length = 0 then AllocAttach w m none length ty
  else if mallocOk then
    AllocAttach w { m with nextPtr := m.nextPtr + 1 } (some m.nextPtr) length ty
  else
    .error (.fatalError
      "node::smalloc::Alloc(v8::Handle<v8::Object>, size_t, v8::ExternalArrayType)"
      "Out Of Memory")

/-- From smalloc.cc lines 215-240, the `alloc(obj, n[, type])` binding: rejects a
wrapper that already has external array data with a `TypeError` before
reading any other argument; converts `n` with `Uint32Value`; with no third
argument the type is `kExternalUnsignedByteArray` and the length is used as
is, otherwise the length is scaled by the element width under an
`assert(type_length * length >= length)`; then calls the `Alloc` overload
above. -/
def AllocJS (w : WrapperState) (m : MachineState) (n : Nat)
    (ty? : Option ExternalArrayType) (mallocOk : Bool) :
    Except JsError (WrapperState × MachineState) :=
  if HasExternalData w then .error (.typeError "object already has external array data")
  else
    match ty? with
    | none => AllocMalloc w m (n % u32) .externalUnsignedByteArray mallocOk
    | some ty =>
      if ¬ (n % u32 ≤ ExternalArraySize ty * (n % u32) % u64) then
        .error (.contractAssert "type_length * length >= length")
      else AllocMalloc w m (ExternalArraySize ty * (n % u32) % u64) ty mallocOk

/-- From smalloc.cc lines 368-394, `Alloc(env, obj, data, length, fn, hint, type)`:
asserts the wrapper has no external array data, sets the process-wide
`using_smalloc_alloc_cb` flag, allocates a fresh `CallbackInfo` record and
stores it in the hidden `smalloc_p` slot, adjusts the accountant by
`+(length + sizeof(CallbackInfo))`, arms `SetWeak(cb_info,
TargetFreeCallback)`, and installs `(data, type, length / type_size)`. -/
def AllocCbAttach (w : WrapperState) (m : MachineState) (data : Option Nat)
    (length : Nat) (ty : ExternalArrayType) :
    Except JsError (WrapperState × MachineState) :=
  if HasExternalData w then
    .error (.contractAssert "!obj->HasIndexedPropertiesInExternalArrayData()")
  else
    .ok ({ w with slot := some (data, ty, length / ExternalArraySize ty),
                  hiddenCb := some m.nextPtr, cbAlive := true, weak := .weakCustom },
         { m with usingCb := true, nextPtr := m.nextPtr + 1,
                  acct := m.acct + ((length + sizeofCallbackInfo : Nat) : Int) })

/-- From smalloc.cc lines 348-365, `Alloc(env, obj, length, fn, hint, type)`:
asserts `length <= kMaxLength` (on the raw element count), `type_size > 0`
and `length * type_size >= length`, scales the length, and allocates with an
unchecked `new char[length]` — C++ `operator new[]` never returns NULL, it
raises `std::bad_alloc` on exhaustion (`newOk` is the allocator oracle, and
there is no failure check or `FatalError` call on this path). -/
def AllocCb (w : WrapperState) (m : MachineState) (n : Nat)
    (ty : ExternalArrayType) (newOk : Bool) :
    Except JsError (WrapperState × MachineState) :=
  if ¬ (n ≤ kMaxLength) then .error (.contractAssert "length <= kMaxLength")
  else if ¬ (0 < ExternalArraySize ty) then .error (.contractAssert "type_size > 0")
  else if ¬ (n ≤ n * ExternalArraySize ty % u64) then
    .error (.contractAssert "length * type_size >= length")
  else if newOk then
    AllocCbAttach w { m with nextPtr := m.nextPtr + 1 } (some m.nextPtr)
      (n * ExternalArraySize ty % u64) ty
  else .error .cppBadAlloc

/-- From smalloc.cc lines 397-417, `TargetFreeCallback(isolate, target, cb_info)`:
reads the wrapper's data pointer, element count and type, asserts the width
is positive, scales the count when the width exceeds one under the strict
`assert(len * array_size > len)`, adjusts the accountant by `-(len +
sizeof(*cb_info))`, resets the persistent handle (disarming the weak
registration), invokes the custom callback `cb_info->cb(data, cb_info->hint)`
and `delete`s the `CallbackInfo`.  The wrapper's array-data slot and hidden
slot are left untouched. -/
def TargetFreeCallback (w : WrapperState) (m : MachineState) :
    Except JsError (WrapperState × MachineState) :=
  if ¬ w.cbAlive then .error .useAfterFree
  else if ¬ (0 < ExternalArraySize (GetExternalArrayDataType w)) then
    .error (.contractAssert "array_size > 0")
  else if 1 < ExternalArraySize (GetExternalArrayDataType w) ∧
      ¬ (GetExternalArrayDataLength w <
        GetExternalArrayDataLength w * ExternalArraySize (GetExternalArrayDataType w) % u64) then
    .error (.contractAssert "len * array_size > len")
  else
    .ok ({ w with weak := .noReg, cbAlive := false },
         { m with
            acct := m.acct -
              (((if 1 < ExternalArraySize (GetExternalArrayDataType w) then
                  GetExternalArrayDataLength w *
                    ExternalArraySize (GetExternalArrayDataType w) % u64
                else GetExternalArrayDataLength w) + sizeofCallbackInfo : Nat) : Int),
            negAdjusts := m.negAdjusts + 1,
            releases := m.releases + 1 })

/-- From smalloc.cc lines 311-345, `AllocDispose(env, obj)`: when the process-wide
`using_smalloc_alloc_cb` flag is set and the hidden `smalloc_p` slot holds an
`External`, delegates to `TargetFreeCallback`.  Otherwise reads the wrapper's
data pointer, element count and type, asserts a positive width and
`length * array_size >= length`, scales the count, then — if the data pointer
is non-NULL — zeroes the slot to `(NULL, kExternalUnsignedByteArray, 0)` and
`free`s the data, and — if the byte length is nonzero — adjusts the
accountant by `-length`.  There is no attached-buffer precondition and no
`released` flag. -/
def AllocDispose (w : WrapperState) (m : MachineState) :
    Except JsError (WrapperState × MachineState) :=
  if m.usingCb ∧ w.hiddenCb.isSome then TargetFreeCallback w m
  else if ¬ (0 < ExternalArraySize (GetExternalArrayDataType w)) then
    .error (.contractAssert "array_size > 0")
  else if ¬ (GetExternalArrayDataLength w ≤
      GetExternalArrayDataLength w * ExternalArraySize (GetExternalArrayDataType w) % u64) then
    .error (.contractAssert "length * array_size >= length")
  else
    match GetExternalArrayData w with
    | some p =>
      if GetExternalArrayDataLength w * ExternalArraySize (GetExternalArrayDataType w) % u64 ≠ 0 then
        .ok ({ w with slot := some (none, .externalUnsignedByteArray, 0) },
             { m with freed := m.freed ++ [p], releases := m.releases + 1,
                      acct := m.acct - ((GetExternalArrayDataLength w * ExternalArraySize (GetExternalArrayDataType w) % u64 : Nat) : Int),
                      negAdjusts := m.negAdjusts + 1 })
      else
        .ok ({ w with slot := some (none, .externalUnsignedByteArray, 0) },
             { m with freed := m.freed ++ [p], releases := m.releases + 1 })
    | none =>
      if GetExternalArrayDataLength w * ExternalArraySize (GetExternalArrayDataType w) % u64 ≠ 0 then
        .ok (w, { m with acct := m.acct - ((GetExternalArrayDataLength w * ExternalArraySize (GetExternalArrayDataType w) % u64 : Nat) : Int),
                         negAdjusts := m.negAdjusts + 1 })
      else .ok (w, m)

/-- The collector invoking the pending weak callback for a wrapper, strictly
once per registration.  With no registration pending nothing happens.  A
default registration runs `TargetCallback` (smalloc.cc lines 281-301): it
recomputes the byte length from the wrapper's (possibly already zeroed) slot
and only when the stored parameter is non-NULL and that length is positive
does it adjust the accountant by `-len` and `free` the parameter; a custom
registration runs `TargetFreeCallback` (lines 420-423). -/
def FireWeak (w : WrapperState) (m : MachineState) :
    Except JsError (WrapperState × MachineState) :=
  match w.weak with
  | .noReg => .ok (w, m)
  | .weakCustom => TargetFreeCallback w m
  | .weakDefault info =>
    if ¬ (0 < ExternalArraySize (GetExternalArrayDataType w)) then
      .error (.contractAssert "array_size > 0")
    else if ¬ (GetExternalArrayDataLength w ≤
        ExternalArraySize (GetExternalArrayDataType w) * GetExternalArrayDataLength w % u64) then
      .error (.contractAssert "array_size * len >= len")
    else
      match info with
      | some p =>
        if 0 < ExternalArraySize (GetExternalArrayDataType w) *
            GetExternalArrayDataLength w % u64 then
          .ok ({ w with weak := .noReg },
               { m with acct := m.acct - ((ExternalArraySize (GetExternalArrayDataType w) * GetExternalArrayDataLength w % u64 : Nat) : Int),
                        negAdjusts := m.negAdjusts + 1,
                        freed := m.freed ++ [p], releases := m.releases + 1 })
        else .ok ({ w with weak := .noReg }, m)
      | none => .ok ({ w with weak := .noReg }, m)

/-- One allocation request: the public `alloc` binding (default release
policy) or the internal callback-carrying `Alloc` overload. -/
inductive AllocReq where
  | defaultAlloc (n : Nat) (ty? : Option ExternalArrayType)
  | customAlloc (n : Nat) (ty : ExternalArrayType)
deriving DecidableEq, Repr

def RunAlloc (w : WrapperState) (m : MachineState) :
    AllocReq → Except JsError (WrapperState × MachineState)
  | .defaultAlloc n ty? => AllocJS w m n ty? true
  | .customAlloc n ty => AllocCb w m n ty true

/-- A successful allocate/dispose pair on a fresh wrapper: returns the
resulting process-wide state, or `none` when either step fails. -/
def RunPair (m : MachineState) (r : AllocReq) : Option MachineState :=
  match RunAlloc freshWrapper m r with
  | .error _ => none
  | .ok (w1, m1) =>
    match AllocDispose w1 m1 with
    | .error _ => none
    | .ok (_, m2) => some m2

def RunPairs (m : MachineState) : List AllocReq → Option MachineState
  | [] => some m
  | r :: rs =>
    match RunPair m r with
    | none => none
    | some m1 => RunPairs m1 rs

/-! ## Arithmetic helper lemmas -/

lemma u32_lt_u64 : u32 < u64 := by decide

lemma externalArraySize_le_8 (t : ExternalArrayType) : ExternalArraySize t ≤ 8 := by
  cases t <;> decide

lemma externalArraySize_dvd_u64 (t : ExternalArrayType) :
    ExternalArraySize t ∣ u64 ∨ ExternalArraySize t = 0 := by
  cases t <;> decide

lemma mod_u32_lt (n : Nat) : n % u32 < u32 :=
  Nat.mod_lt _ (by decide)

/-! ## Claim C2 -/

/-- Claim C2: for every `copyOnto` call on two attached buffers where the
scaling phase succeeds and any of the six bounds inequalities (over the
post-scaling lengths the code computes, in the spec's stated order) is
violated, `CopyOnto` throws the `RangeError` naming the first violated
inequality in that fixed order, and neither the destination bytes nor the
accountant are mutated (the source bytes are only ever read). -/
theorem c2_copy_bounds (a : CopyArgs) (acct : Int) (sl cl dl : Nat) (e : JsError)
    (hs : a.sourceHas = true) (hd : a.destHas = true)
    (hscale : ScalePhase a.sourceCount a.destCount (a.copyLength % u32)
      (ExternalArraySize a.sourceType) (ExternalArraySize a.destType) = .ok (sl, cl, dl))
    (hviol : firstViolationSpec sl dl (a.sourceStart % u32) (a.destStart % u32) cl = some e) :
    CopyOnto a acct = ⟨some e, a.destBytes, acct⟩ := by
  unfold CopyOnto
  rw [hs, hd, hscale]
  simp only [not_true, Bool.true_eq_false, if_false, ite_false, eq_self_iff_true,
    not_true_eq_false]
  unfold firstViolationSpec at hviol
  split_ifs at hviol with h1 h2 h3 h4 h5 h6 <;>
    (injection hviol with he
     subst he
     split_ifs <;> first | rfl | omega)

/-- Witness for C2: a 4-byte source, 4-byte destination, `copy_length = 5`;
the first inequality is violated and the reported error names it, with the
destination bytes and accountant untouched. -/
theorem c2_copy_bounds_witness :
    CopyOnto ⟨true, true, [9, 9, 9, 9], [0, 0, 0, 0], 4, .externalUnsignedByteArray,
      4, .externalUnsignedByteArray, 0, 0, 5⟩ 3 =
      ⟨some (.rangeError "copy_length > source_length"), [0, 0, 0, 0], 3⟩ :=
  c2_copy_bounds _ 3 4 5 4 _ rfl rfl (by decide) (by decide)

/-! ## Claim C4 -/

/-- Claim C4, amended: the element-width scaling phase of `CopyOnto` runs
only when BOTH element widths differ from one.  (1) If either side has
single-byte width, the lengths pass through unscaled — interpreted directly
in bytes — and no unknown-type or overflow check is performed.  (2) When both
widths exceed one (`uint32`-bounded inputs, widths at most 8 by
`ExternalArraySize`), `source_length` and `copy_length` are scaled by the
source width and `dest_length` by the dest width, so a copy length given in
4-byte elements is subsequently bounds-checked against `length * 4` bytes.
(3) Inside the scaling branch each multiplication is guarded by a wraparound
check failing with the overflow `RangeError`. -/
theorem c4_scaling :
    (∀ sourceLength destLength copyLength (st dt : ExternalArrayType),
      ExternalArraySize st = 1 ∨ ExternalArraySize dt = 1 →
      ScalePhase sourceLength destLength copyLength
        (ExternalArraySize st) (ExternalArraySize dt) =
        .ok (sourceLength, copyLength, destLength)) ∧
    (∀ sourceLength destLength copyLength (st dt : ExternalArrayType),
      2 ≤ ExternalArraySize st → 2 ≤ ExternalArraySize dt →
      sourceLength < u32 → destLength < u32 → copyLength < u32 →
      ScalePhase sourceLength destLength copyLength
        (ExternalArraySize st) (ExternalArraySize dt) =
        .ok (sourceLength * ExternalArraySize st, copyLength * ExternalArraySize st,
             destLength * ExternalArraySize dt)) ∧
    (∀ sourceLength destLength copyLength sourceSize destSize,
      sourceSize ≠ 1 → destSize ≠ 1 → sourceSize ≠ 0 → destSize ≠ 0 →
      sourceLength * sourceSize % u64 < sourceLength →
      ScalePhase sourceLength destLength copyLength sourceSize destSize =
        .error (.rangeError "source_length * source_size overflow")) := by
  refine ⟨?_, ?_, ?_⟩
  · intro sl dl cl st dt h
    unfold ScalePhase
    rcases h with h | h <;> rw [h] <;> simp
  · intro sl dl cl st dt hst hdt hsl hdl hcl
    have h8s := externalArraySize_le_8 st
    have h8d := externalArraySize_le_8 dt
    have hm1 : sl * ExternalArraySize st % u64 = sl * ExternalArraySize st := by
      apply Nat.mod_eq_of_lt
      calc sl * ExternalArraySize st ≤ sl * 8 := Nat.mul_le_mul_left _ h8s
        _ < u64 := by simp only [u32, u64] at *; omega
    have hm2 : cl * ExternalArraySize st % u64 = cl * ExternalArraySize st := by
      apply Nat.mod_eq_of_lt
      calc cl * ExternalArraySize st ≤ cl * 8 := Nat.mul_le_mul_left _ h8s
        _ < u64 := by simp only [u32, u64] at *; omega
    have hm3 : dl * ExternalArraySize dt % u64 = dl * ExternalArraySize dt := by
      apply Nat.mod_eq_of_lt
      calc dl * ExternalArraySize dt ≤ dl * 8 := Nat.mul_le_mul_left _ h8d
        _ < u64 := by simp only [u32, u64] at *; omega
    unfold ScalePhase
    rw [hm1, hm2, hm3]
    have hst1 : ExternalArraySize st ≠ 1 := by omega
    have hdt1 : ExternalArraySize dt ≠ 1 := by omega
    have hst0 : ExternalArraySize st ≠ 0 := by omega
    have hdt0 : ExternalArraySize dt ≠ 0 := by omega
    simp only [hst1, hdt1, hst0, hdt0, ne_eq, not_false_eq_true, and_self, if_true, if_false]
    have g1 : ¬ (sl * ExternalArraySize st < sl) := by
      have : sl ≤ sl * ExternalArraySize st := Nat.le_mul_of_pos_right _ (by omega)
      omega
    have g2 : ¬ (cl * ExternalArraySize st < cl) := by
      have : cl ≤ cl * ExternalArraySize st := Nat.le_mul_of_pos_right _ (by omega)
      omega
    have g3 : ¬ (dl * ExternalArraySize dt < dl) := by
      have : dl ≤ dl * ExternalArraySize dt := Nat.le_mul_of_pos_right _ (by omega)
      omega
    simp [g1, g2, g3]
  · intro sl dl cl ss ds h1 h2 h3 h4 hover
    unfold ScalePhase
    simp [h1, h2, h3, h4, hover]

/-- Witness for C4: with a 4-byte source and single-byte destination the
lengths pass through unscaled, and with 4-byte elements on both sides every
length is scaled by its width. -/
theorem c4_scaling_witness :
    ScalePhase 10 15 8 (ExternalArraySize .externalIntArray)
      (ExternalArraySize .externalUnsignedByteArray) = .ok (10, 8, 15) ∧
    ScalePhase 10 10 5 (ExternalArraySize .externalIntArray)
      (ExternalArraySize .externalIntArray) = .ok (40, 20, 40) :=
  ⟨c4_scaling.1 10 15 8 _ _ (Or.inr (by decide)),
   c4_scaling.2.1 10 10 5 _ _ (by decide) (by decide) (by decide) (by decide) (by decide)⟩

/-- Counterexample for C4 as stated: the claim requires scaling whenever not
both widths are single-byte, in particular with a 4-byte source and
single-byte destination.  Here such a copy with `copy_length = 8` succeeds
and moves 8 bytes even though the claim's scaled length `8 * 4 = 32` exceeds
the destination byte length 15, so no `RangeError` is raised and no scaling
happened. -/
theorem c4_scaling_counterexample :
    CopyOnto ⟨true, true, List.range 40, List.replicate 15 0, 10, .externalIntArray,
      15, .externalUnsignedByteArray, 0, 0, 8⟩ 0 =
      ⟨none, [0, 1, 2, 3, 4, 5, 6, 7, 0, 0, 0, 0, 0, 0, 0], 0⟩ ∧
    15 < 8 * ExternalArraySize ExternalArrayType.externalIntArray := by decide

/-! ## Claim C5 -/

/-- Claim C5, amended: for a slice of an attached source onto a buffer-less
destination with `start ≤ end ≤ sourceLen` (in-range `uint32` indices) and a
known element kind, `SliceOnto` attaches to the destination the triple whose
data pointer is `source.data + start` — the UNSCALED index, not
`start * width` — whose stored length is `end - start` scaled by the source
element width when that width exceeds one, and whose element kind equals the
source's.  No bytes are copied: the result is a pointer into the source
block. -/
theorem c5_slice_alias (p sourceLen start finish : Nat) (st : ExternalArrayType)
    (hw : 0 < ExternalArraySize st) (hse : start ≤ finish) (hes : finish ≤ sourceLen)
    (hs32 : start < u32) (he32 : finish < u32) :
    SliceOnto true false (some p) sourceLen st start finish =
      .ok (some (p + start), st,
        if 1 < ExternalArraySize st then (finish - start) * ExternalArraySize st
        else finish - start) := by
  have hsm : start % u32 = start := Nat.mod_eq_of_lt hs32
  have hem : finish % u32 = finish := Nat.mod_eq_of_lt he32
  have h8 := externalArraySize_le_8 st
  have hlen : (finish + u64 - start) % u64 = finish - start := by
    have h1 : finish + u64 - start = (finish - start) + u64 := by omega
    rw [h1, Nat.add_mod_right]
    exact Nat.mod_eq_of_lt (by simp only [u32, u64] at *; omega)
  have hmul : (finish - start) * ExternalArraySize st % u64 =
      (finish - start) * ExternalArraySize st := by
    apply Nat.mod_eq_of_lt
    calc (finish - start) * ExternalArraySize st ≤ (finish - start) * 8 :=
          Nat.mul_le_mul_left _ h8
      _ < u64 := by simp only [u32, u64] at *; omega
  have hd : finish - start ≤ (finish - start) * ExternalArraySize st :=
    Nat.le_mul_of_pos_right _ hw
  unfold SliceOnto
  rw [hsm, hem, hlen, hmul]
  simp [hw, hd, hse, hes]

/-- Witness for C5 (amended): the spec §8 example on a single-byte source —
`slice(source, dest, 4, 12)` attaches `(source.data + 4, same kind, 8)`. -/
theorem c5_slice_alias_witness :
    SliceOnto true false (some 100) 16 .externalUnsignedByteArray 4 12 =
      .ok (some 104, .externalUnsignedByteArray, 8) := by
  have h := c5_slice_alias 100 16 4 12 .externalUnsignedByteArray
    (by decide) (by decide) (by decide) (by decide) (by decide)
  simpa using h

/-- Counterexample for C5 as stated: on a 4-byte-element source,
`sliceOnto(source, dest, 1, 2)` attaches data pointer `source.data + 1`, not
`source.data + 1 * 4` as the claim requires (`start` is never scaled by the
element width on smalloc.cc line 206), and stores length `(2 - 1) * 4 = 4`. -/
theorem c5_slice_alias_counterexample :
    SliceOnto true false (some 100) 4 .externalIntArray 1 2 =
      .ok (some 101, .externalIntArray, 4) ∧
    100 + 1 * ExternalArraySize ExternalArrayType.externalIntArray ≠ 101 := by decide

/-! ## Claim C7 -/

/-- Claim C7: calling the `alloc` binding on a wrapper that already has
external array data fails with the `TypeError` "object already has external
array data" before any length computation, allocation, attachment or
accounting mutation — the wrapper state and machine state are arguments of a
returned error, so the first attached buffer is untouched. -/
theorem c7_reattach_rejected (w : WrapperState) (m : MachineState) (n : Nat)
    (ty? : Option ExternalArrayType) (mallocOk : Bool)
    (h : HasExternalData w = true) :
    AllocJS w m n ty? mallocOk =
      .error (.typeError "object already has external array data") := by
  unfold AllocJS
  rw [h]
  simp

/-- Witness for C7: a wrapper holding a 5-element byte buffer; a second
`alloc` (even with a failing allocator) is rejected with the `TypeError`. -/
theorem c7_reattach_rejected_witness :
    AllocJS ⟨some (some 0, .externalUnsignedByteArray, 5), none, false,
        .weakDefault (some 0)⟩ (initMachine 5) 3 none false =
      .error (.typeError "object already has external array data") :=
  c7_reattach_rejected _ _ 3 none false (by decide)

/-! ## Claim C9 -/

/-- Claim C9, amended: an allocation request with an unknown (zero-width)
element kind fails an `assert` — i.e. aborts — before any allocation,
attachment or accounting mutation: for a nonzero element count the
`assert(type_length * length >= length)` on smalloc.cc line 234 fires
(`0 * length < length`), and for a zero count the `assert(type_size > 0)` on
line 250 fires.  No recoverable `TypeError` is ever produced on this path. -/
theorem c9_unknown_kind (w : WrapperState) (m : MachineState) (n : Nat) (mallocOk : Bool)
    (h : HasExternalData w = false) :
    AllocJS w m n (some .unknownArrayType) mallocOk =
      .error (.contractAssert (if n % u32 = 0 then "type_size > 0"
        else "type_length * length >= length")) := by
  unfold AllocJS AllocMalloc
  rw [h]
  by_cases hz : n % u32 = 0 <;>
    simp [hz, ExternalArraySize, kMaxLength]

/-- Witness for C9 (amended): element count 1 with an unknown kind hits the
width-scaling assert; the failure is an abort, not a thrown type error. -/
theorem c9_unknown_kind_witness :
    AllocJS freshWrapper (initMachine 0) 1 (some .unknownArrayType) true =
      .error (.contractAssert "type_length * length >= length") := by
  have h := c9_unknown_kind freshWrapper (initMachine 0) 1 true (by decide)
  simpa using h

/-- Counterexample for C9 as stated: the claim requires a recoverable
`UnknownElementKind` type error reported to the caller; at element count 1
the code instead fails the `assert(type_length * length >= length)`
(an abort), and no `JsError.typeError` is produced. -/
theorem c9_unknown_kind_counterexample :
    AllocJS freshWrapper (initMachine 0) 1 (some .unknownArrayType) true =
      .error (.contractAssert "type_length * length >= length") ∧
    AllocJS freshWrapper (initMachine 0) 0 (some .unknownArrayType) true =
      .error (.contractAssert "type_size > 0") := by decide

/-! ## Claim C6 -/

/-- Claim C6, amended: an allocation request whose element count times
element width exceeds `kMaxLength` — in particular `elementCount =
kMaxLength` with a 4-byte kind — fails the `assert(length <= kMaxLength)` on
smalloc.cc line 249 (an abort, not a recoverable `LengthOverflow`/`RangeError`)
before any allocation, attachment or accounting mutation.  The product
itself cannot wrap the 64-bit `size_t` (second conjunct), because the
element count is a `uint32` and widths are at most 8, so no wraparound to a
small allocation is possible. -/
theorem c6_overflow_rejected (w : WrapperState) (m : MachineState) (n : Nat)
    (ty : ExternalArrayType) (hfree : HasExternalData w = false)
    (hover : kMaxLength < ExternalArraySize ty * (n % u32)) :
    AllocJS w m n (some ty) true = .error (.contractAssert "length <= kMaxLength") ∧
    ExternalArraySize ty * (n % u32) % u64 = ExternalArraySize ty * (n % u32) := by
  have h8 := externalArraySize_le_8 ty
  have hlt := mod_u32_lt n
  have hpos : 0 < ExternalArraySize ty := by
    rcases Nat.eq_zero_or_pos (ExternalArraySize ty) with h0 | h0
    · rw [h0] at hover; simp [kMaxLength] at hover
    · exact h0
  have hm : ExternalArraySize ty * (n % u32) % u64 = ExternalArraySize ty * (n % u32) := by
    apply Nat.mod_eq_of_lt
    calc ExternalArraySize ty * (n % u32) ≤ 8 * (n % u32) := Nat.mul_le_mul_right _ h8
      _ < u64 := by simp only [u32, u64] at *; omega
  refine ⟨?_, hm⟩
  have hge : n % u32 ≤ ExternalArraySize ty * (n % u32) := Nat.le_mul_of_pos_left _ hpos
  unfold AllocJS AllocMalloc
  simp [hfree, hm, hge, hover]

/-- Witness for C6 (amended): `elementCount = kMaxLength` with the 4-byte
`kExternalIntArray` kind trips the `length <= kMaxLength` assert. -/
theorem c6_overflow_rejected_witness :
    AllocJS freshWrapper (initMachine 0) kMaxLength (some .externalIntArray) true =
      .error (.contractAssert "length <= kMaxLength") ∧
    ExternalArraySize ExternalArrayType.externalIntArray * (kMaxLength % u32) % u64 =
      ExternalArraySize ExternalArrayType.externalIntArray * (kMaxLength % u32) :=
  c6_overflow_rejected freshWrapper (initMachine 0) kMaxLength .externalIntArray
    (by decide) (by decide)

/-- Counterexample for C6 as stated: the claim requires a recoverable
`LengthOverflow` failure; for `elementCount = kMaxLength` with a 4-byte kind
the code instead fails the `length <= kMaxLength` assertion, an
assertion-grade abort (the `JsError.contractAssert` class), not a thrown
range error. -/
theorem c6_overflow_rejected_counterexample :
    AllocJS freshWrapper (initMachine 0) kMaxLength (some .externalIntArray) true =
      .error (.contractAssert "length <= kMaxLength") := by decide

/-! ## Claim C10 -/

/-- Claim C10, amended: allocation-failure handling differs between the two
paths.  Default path (first conjunct): when `malloc` fails for a nonzero
in-range length, the process terminates through `node::FatalError` with a
diagnostic naming the failing operation; the condition is never propagated
to the caller and nothing is attached.  Custom-callback path (second
conjunct): the code allocates with an unchecked `new char[length]`, so an
allocation failure surfaces as the C++ runtime's `std::bad_alloc` — no
`FatalError`, no smalloc diagnostic naming the failing operation. -/
theorem c10_alloc_failure :
    (∀ (w : WrapperState) (m : MachineState) (n : Nat),
      HasExternalData w = false → 0 < n % u32 → n % u32 ≤ kMaxLength →
      AllocJS w m n none false = .error (.fatalError
        "node::smalloc::Alloc(v8::Handle<v8::Object>, size_t, v8::ExternalArrayType)"
        "Out Of Memory")) ∧
    (∀ (w : WrapperState) (m : MachineState) (n : Nat) (ty : ExternalArrayType),
      n ≤ kMaxLength → 0 < ExternalArraySize ty →
      AllocCb w m n ty false = .error .cppBadAlloc) := by
  constructor
  · intro w m n hfree hpos hmax
    unfold AllocJS AllocMalloc
    rw [hfree]
    simp [hmax, ExternalArraySize]
    omega
  · intro w m n ty hmax hw
    have h8 := externalArraySize_le_8 ty
    have hm : n * ExternalArraySize ty % u64 = n * ExternalArraySize ty := by
      apply Nat.mod_eq_of_lt
      calc n * ExternalArraySize ty ≤ n * 8 := Nat.mul_le_mul_left _ h8
        _ < u64 := by simp only [kMaxLength, u64] at *; omega
    have hle : n ≤ n * ExternalArraySize ty := Nat.le_mul_of_pos_right _ hw
    unfold AllocCb
    rw [hm]
    simp [hmax, hw, hle]

/-- Witness for C10 (amended): `malloc` failure on the default path is fatal
with the diagnostic; `new[]` failure on the custom path is a bare
`bad_alloc`. -/
theorem c10_alloc_failure_witness :
    AllocJS freshWrapper (initMachine 0) 5 none false = .error (.fatalError
      "node::smalloc::Alloc(v8::Handle<v8::Object>, size_t, v8::ExternalArrayType)"
      "Out Of Memory") ∧
    AllocCb freshWrapper (initMachine 0) 3 .externalIntArray false =
      .error .cppBadAlloc :=
  ⟨c10_alloc_failure.1 freshWrapper (initMachine 0) 5 (by decide) (by decide) (by decide),
   c10_alloc_failure.2 freshWrapper (initMachine 0) 3 .externalIntArray
     (by decide) (by decide)⟩

/-- Counterexample for C10 as stated: the claim requires EVERY allocation
path to terminate through the fatal diagnostic; the custom-callback path
instead yields the C++ runtime's `bad_alloc` with no diagnostic identifying
the failing operation. -/
theorem c10_alloc_failure_counterexample :
    AllocCb freshWrapper (initMachine 0) 5 .externalUnsignedByteArray false =
      .error .cppBadAlloc := by decide

/-! ## Lifecycle helper lemmas (shared by the C1, C3 and C8 developments) -/

lemma if_not_pos {c : Prop} [Decidable c] {α : Sort _} (h : c) (a b : α) :
    (if ¬ c then a else b) = b := by simp [h]

lemma if_not_neg {c : Prop} [Decidable c] {α : Sort _} (h : ¬ c) (a b : α) :
    (if ¬ c then a else b) = a := by simp [h]

/-- Inversion of a successful default-path allocation on a fresh wrapper:
there is an element kind of positive width and a byte length `L` (a multiple
of the width, at most `kMaxLength`, positive whenever the element count is)
such that the wrapper ends attached and the accountant grew by `L`. -/
lemma allocJS_fresh_ok (m : MachineState) (n : Nat) (ty? : Option ExternalArrayType)
    (w1 : WrapperState) (m1 : MachineState)
    (h : AllocJS freshWrapper m n ty? true = .ok (w1, m1)) :
    ∃ (ty : ExternalArrayType) (L : Nat),
      0 < ExternalArraySize ty ∧ L ≤ kMaxLength ∧ ExternalArraySize ty ∣ L ∧
      (0 < n % u32 → 0 < L) ∧
      ((L = 0 ∧ w1 = ⟨some (none, ty, 0), none, false, .weakDefault none⟩ ∧
          m1 = { m with acct := m.acct + (L : Int) }) ∨
       (0 < L ∧ w1 = ⟨some (some m.nextPtr, ty, L / ExternalArraySize ty), none, false,
            .weakDefault (some m.nextPtr)⟩ ∧
          m1 = { m with nextPtr := m.nextPtr + 1, acct := m.acct + (L : Int) })) := by
  cases ty? with
  | none =>
    unfold AllocJS AllocMalloc AllocAttach at h
    simp only [HasExternalData, freshWrapper, Option.isSome_none, Bool.false_eq_true,
      if_false] at h
    by_cases hmax : n % u32 ≤ kMaxLength
    · rw [if_not_pos hmax,
        if_not_pos (by decide : (0:Nat) < ExternalArraySize .externalUnsignedByteArray)] at h
      by_cases hz : n % u32 = 0
      · rw [if_pos hz] at h
        injection h with h'
        injection h' with hw hm
        subst hw; subst hm
        refine ⟨.externalUnsignedByteArray, n % u32, by decide, hmax, one_dvd _,
          fun hp => hp, Or.inl ⟨hz, ?_, ?_⟩⟩
        · simp [ExternalArraySize, hz]
        · rfl
      · rw [if_neg hz, if_pos (by trivial)] at h
        injection h with h'
        injection h' with hw hm
        subst hw; subst hm
        refine ⟨.externalUnsignedByteArray, n % u32, by decide, hmax, one_dvd _,
          fun hp => hp, Or.inr ⟨by omega, ?_, ?_⟩⟩
        · rfl
        · rfl
    · rw [if_not_neg hmax] at h
      exact absurd h (by simp)
  | some ty =>
    unfold AllocJS AllocMalloc AllocAttach at h
    simp only [HasExternalData, freshWrapper, Option.isSome_none, Bool.false_eq_true,
      if_false] at h
    have h8 := externalArraySize_le_8 ty
    have hlt := mod_u32_lt n
    have hmod : ExternalArraySize ty * (n % u32) % u64 = ExternalArraySize ty * (n % u32) := by
      apply Nat.mod_eq_of_lt
      calc ExternalArraySize ty * (n % u32) ≤ 8 * (n % u32) := Nat.mul_le_mul_right _ h8
        _ < u64 := by simp only [u32, u64] at *; omega
    rw [hmod] at h
    rcases Nat.eq_zero_or_pos (ExternalArraySize ty) with hss0 | hsspos
    · exfalso
      rw [hss0] at h
      by_cases hz : n % u32 = 0
      · rw [if_not_pos (by omega : n % u32 ≤ 0 * (n % u32)),
            if_not_pos (by simp [kMaxLength] : 0 * (n % u32) ≤ kMaxLength),
            if_not_neg (by omega : ¬ (0:Nat) < 0)] at h
        exact absurd h (by simp)
      · rw [if_not_neg (by omega : ¬ n % u32 ≤ 0 * (n % u32))] at h
        exact absurd h (by simp)
    · have hguard : n % u32 ≤ ExternalArraySize ty * (n % u32) :=
        Nat.le_mul_of_pos_left _ hsspos
      rw [if_not_pos hguard] at h
      by_cases hmax : ExternalArraySize ty * (n % u32) ≤ kMaxLength
      · rw [if_not_pos hmax, if_not_pos hsspos] at h
        by_cases hz : ExternalArraySize ty * (n % u32) = 0
        · rw [if_pos hz] at h
          injection h with h'
          injection h' with hw hm
          subst hw; subst hm
          refine ⟨ty, ExternalArraySize ty * (n % u32), hsspos, hmax,
            dvd_mul_right _ _, fun hp => Nat.mul_pos hsspos hp, Or.inl ⟨hz, ?_, ?_⟩⟩
          · simp [hz]
          · rfl
        · rw [if_neg hz, if_pos (by trivial)] at h
          injection h with h'
          injection h' with hw hm
          subst hw; subst hm
          refine ⟨ty, ExternalArraySize ty * (n % u32), hsspos, hmax,
            dvd_mul_right _ _, fun hp => Nat.mul_pos hsspos hp, Or.inr ⟨by omega, ?_, ?_⟩⟩
          · rfl
          · rfl
      · rw [if_not_neg hmax] at h
        exact absurd h (by simp)

/-- Inversion of a successful custom-callback allocation on a fresh wrapper:
the element width is positive, the raw element count is at most `kMaxLength`,
the wrapper ends attached with a live `CallbackInfo`, and the accountant grew
by the byte length plus `sizeof(CallbackInfo)`. -/
lemma allocCb_fresh_ok (m : MachineState) (n : Nat) (ty : ExternalArrayType)
    (w1 : WrapperState) (m1 : MachineState)
    (h : AllocCb freshWrapper m n ty true = .ok (w1, m1)) :
    0 < ExternalArraySize ty ∧ n ≤ kMaxLength ∧
    w1 = ⟨some (some m.nextPtr, ty, n), some (m.nextPtr + 1), true, .weakCustom⟩ ∧
    m1 = { m with usingCb := true, nextPtr := m.nextPtr + 2,
                  acct := m.acct + ((n * ExternalArraySize ty + sizeofCallbackInfo : Nat) : Int) } := by
  unfold AllocCb AllocCbAttach at h
  simp only [HasExternalData, freshWrapper, Option.isSome_none, Bool.false_eq_true,
    if_false] at h
  by_cases hmax : n ≤ kMaxLength
  · rw [if_not_pos hmax] at h
    rcases Nat.eq_zero_or_pos (ExternalArraySize ty) with hss0 | hsspos
    · rw [hss0, if_not_neg (by omega : ¬ (0:Nat) < 0)] at h
      exact absurd h (by simp)
    · have h8 := externalArraySize_le_8 ty
      have hmod : n * ExternalArraySize ty % u64 = n * ExternalArraySize ty := by
        apply Nat.mod_eq_of_lt
        calc n * ExternalArraySize ty ≤ n * 8 := Nat.mul_le_mul_left _ h8
          _ < u64 := by simp only [kMaxLength, u64] at *; omega
      rw [if_not_pos hsspos, hmod,
        if_not_pos (Nat.le_mul_of_pos_right _ hsspos), if_pos (by trivial)] at h
      injection h with h'
      injection h' with hw hm
      subst hw; subst hm
      exact ⟨hsspos, hmax, by simp [Nat.mul_div_cancel _ hsspos], rfl⟩
  · rw [if_not_neg hmax] at h
    exact absurd h (by simp)

/-- Disposing a default-path wrapper holding a non-NULL block of positive
byte length frees the block once, zeroes the slot and decrements the
accountant by the byte length. -/
lemma allocDispose_default_pos (p c : Nat) (ty : ExternalArrayType) (cb : Bool)
    (wk : WeakReg) (m : MachineState) (hty : 0 < ExternalArraySize ty)
    (hlt : c * ExternalArraySize ty < u64) (hpos : 0 < c) :
    AllocDispose ⟨some (some p, ty, c), none, cb, wk⟩ m =
      .ok (⟨some (none, .externalUnsignedByteArray, 0), none, cb, wk⟩,
        { m with freed := m.freed ++ [p], releases := m.releases + 1,
                 acct := m.acct - ((c * ExternalArraySize ty : Nat) : Int),
                 negAdjusts := m.negAdjusts + 1 }) := by
  have hmod : c * ExternalArraySize ty % u64 = c * ExternalArraySize ty :=
    Nat.mod_eq_of_lt hlt
  unfold AllocDispose
  simp only [GetExternalArrayData, GetExternalArrayDataLength, GetExternalArrayDataType,
    Option.isSome_none, Bool.and_eq_true, Option.isSome_some, and_false,
    Bool.false_eq_true, if_false, hmod]
  rw [if_not_pos hty, if_not_pos (Nat.le_mul_of_pos_right _ hty),
    if_pos (Nat.mul_pos hpos hty).ne']

/-- Disposing a wrapper whose slot holds a NULL block of length zero (a
zero-length allocation, or a wrapper already disposed) is a silent no-op:
no free, no accountant change, no error. -/
lemma allocDispose_null_data (ty : ExternalArrayType) (cb : Bool) (wk : WeakReg)
    (m : MachineState) (hty : 0 < ExternalArraySize ty) :
    AllocDispose ⟨some (none, ty, 0), none, cb, wk⟩ m =
      .ok (⟨some (none, ty, 0), none, cb, wk⟩, m) := by
  unfold AllocDispose
  simp only [GetExternalArrayData, GetExternalArrayDataLength, GetExternalArrayDataType,
    Option.isSome_none, Bool.and_eq_true, Option.isSome_some, and_false,
    Bool.false_eq_true, if_false, Nat.zero_mul, Nat.zero_mod]
  rw [if_not_pos hty, if_not_pos (Nat.le_refl 0)]
  simp

/-- Inversion of a successful dispose on a custom-callback wrapper: the
callback ran once, the weak registration was disarmed, the `CallbackInfo`
died, the accountant dropped by byte length plus record size — and the
array-data slot is left untouched. -/
lemma allocDispose_custom_inv (p pc c : Nat) (ty : ExternalArrayType) (wk : WeakReg)
    (m : MachineState) (w2 : WrapperState) (m2 : MachineState)
    (hcb : m.usingCb = true) (hlt : c * ExternalArraySize ty < u64)
    (hty : 0 < ExternalArraySize ty)
    (h : AllocDispose ⟨some (some p, ty, c), some pc, true, wk⟩ m = .ok (w2, m2)) :
    w2 = ⟨some (some p, ty, c), some pc, false, .noReg⟩ ∧
    m2 = { m with acct := m.acct - ((c * ExternalArraySize ty + sizeofCallbackInfo : Nat) : Int),
                  negAdjusts := m.negAdjusts + 1, releases := m.releases + 1 } := by
  have hmod : c * ExternalArraySize ty % u64 = c * ExternalArraySize ty :=
    Nat.mod_eq_of_lt hlt
  unfold AllocDispose TargetFreeCallback at h
  rw [if_pos (show m.usingCb = true ∧ (some pc).isSome = true from ⟨hcb, rfl⟩)] at h
  simp only [GetExternalArrayData, GetExternalArrayDataLength, GetExternalArrayDataType,
    hmod, not_true, if_false] at h
  rw [if_not_pos hty] at h
  by_cases hgt : 1 < ExternalArraySize ty
  · rcases Nat.eq_zero_or_pos c with hc0 | hcpos
    · subst hc0
      rw [if_pos ⟨hgt, by simp⟩] at h
      exact absurd h (by simp)
    · have hlt2 : c < c * ExternalArraySize ty := by
        calc c = c * 1 := (Nat.mul_one c).symm
          _ < c * ExternalArraySize ty := (Nat.mul_lt_mul_left hcpos).mpr hgt
      rw [if_neg (fun hh => hh.2 hlt2), if_pos hgt] at h
      injection h with h'
      injection h' with hw hm
      exact ⟨hw.symm, hm.symm⟩
  · rw [if_neg (fun hh => hgt hh.1), if_neg hgt] at h
    have hss1 : ExternalArraySize ty = 1 := by omega
    injection h with h'
    injection h' with hw hm
    refine ⟨hw.symm, ?_⟩
    rw [← hm, hss1, Nat.mul_one]

/-- Firing the still-armed default weak callback after a dispose: the stored
length is zero, so `TargetCallback` frees nothing and adjusts nothing. -/
lemma fireWeak_after_default_dispose (p : Nat) (cb : Bool) (m : MachineState) :
    FireWeak ⟨some (none, .externalUnsignedByteArray, 0), none, cb, .weakDefault (some p)⟩ m =
      .ok (⟨some (none, .externalUnsignedByteArray, 0), none, cb, .noReg⟩, m) := by
  unfold FireWeak
  simp [GetExternalArrayDataType, GetExternalArrayDataLength, ExternalArraySize]

/-- Disposing a custom-callback wrapper whose `CallbackInfo` was already
deleted dereferences freed memory. -/
lemma allocDispose_dead_cb (s : Option (Option Nat × ExternalArrayType × Nat)) (pc : Nat)
    (wk : WeakReg) (m : MachineState) (hcb : m.usingCb = true) :
    AllocDispose ⟨s, some pc, false, wk⟩ m = .error .useAfterFree := by
  unfold AllocDispose TargetFreeCallback
  rw [if_pos (show m.usingCb = true ∧ (some pc).isSome = true from ⟨hcb, rfl⟩)]
  simp

/-- Disposing a wrapper that never had external array data fails the
`assert(array_size > 0)`: V8 reports an unrecognized element type of width 0
for such an object. -/
lemma allocDispose_fresh (m : MachineState) :
    AllocDispose freshWrapper m = .error (.contractAssert "array_size > 0") := by
  unfold AllocDispose
  simp [freshWrapper, GetExternalArrayData, GetExternalArrayDataLength,
    GetExternalArrayDataType, ExternalArraySize]

/-! ## Claim C1 -/

/-- Claim C1, amended: for a successful allocation of nonzero length through
either path followed by an explicit dispose, the release policy runs exactly
once and the accountant is decremented exactly once (`releases = 1`,
`negAdjusts = 1`, accountant back to its initial value), and the
weak-finalization callback fired afterwards is a no-op apart from consuming
the registration.  The reverse order is NOT guarded: the code has no
`released` flag, and the counterexample shows the weak callback followed by a
dispose frees the same pointer twice and decrements twice — that order is
prevented in the runtime only because the collector fires the callback when
the wrapper can no longer be disposed. -/
theorem c1_single_release :
    (∀ (a0 : Int) (n : Nat) (ty? : Option ExternalArrayType) (w1 w2 : WrapperState)
        (m1 m2 : MachineState),
      0 < n % u32 →
      AllocJS freshWrapper (initMachine a0) n ty? true = .ok (w1, m1) →
      AllocDispose w1 m1 = .ok (w2, m2) →
      m2.releases = 1 ∧ m2.negAdjusts = 1 ∧ m2.acct = a0 ∧
      FireWeak w2 m2 = .ok ({ w2 with weak := .noReg }, m2)) ∧
    (∀ (a0 : Int) (n : Nat) (ty : ExternalArrayType) (w1 w2 : WrapperState)
        (m1 m2 : MachineState),
      AllocCb freshWrapper (initMachine a0) n ty true = .ok (w1, m1) →
      AllocDispose w1 m1 = .ok (w2, m2) →
      m2.releases = 1 ∧ m2.negAdjusts = 1 ∧ m2.acct = a0 ∧
      FireWeak w2 m2 = .ok ({ w2 with weak := .noReg }, m2)) := by
  constructor
  · intro a0 n ty? w1 w2 m1 m2 hpos hA hD
    obtain ⟨ty, L, hty, hmax, hdvd, himp, hcase⟩ := allocJS_fresh_ok _ _ _ _ _ hA
    rcases hcase with ⟨hL0, hw1, hm1⟩ | ⟨hLpos, hw1, hm1⟩
    · exact absurd (himp hpos) (by omega)
    · subst hw1; subst hm1
      have hcpos : 0 < L / ExternalArraySize ty :=
        Nat.div_pos (Nat.le_of_dvd hLpos hdvd) hty
      have hcs : L / ExternalArraySize ty * ExternalArraySize ty = L :=
        Nat.div_mul_cancel hdvd
      have hlt : L / ExternalArraySize ty * ExternalArraySize ty < u64 := by
        rw [hcs]; simp only [kMaxLength, u64] at *; omega
      rw [allocDispose_default_pos _ _ _ _ _ _ hty hlt hcpos] at hD
      injection hD with h'
      injection h' with hw2 hm2
      subst hw2; subst hm2
      refine ⟨rfl, rfl, ?_, ?_⟩
      · simp only [initMachine]
        rw [hcs]
        omega
      · exact fireWeak_after_default_dispose _ _ _
  · intro a0 n ty w1 w2 m1 m2 hA hD
    obtain ⟨hty, hmax, hw1, hm1⟩ := allocCb_fresh_ok _ _ _ _ _ hA
    subst hw1; subst hm1
    have h8 := externalArraySize_le_8 ty
    have hlt : n * ExternalArraySize ty < u64 := by
      calc n * ExternalArraySize ty ≤ n * 8 := Nat.mul_le_mul_left _ h8
        _ < u64 := by simp only [kMaxLength, u64] at *; omega
    obtain ⟨hw2, hm2⟩ := allocDispose_custom_inv _ _ _ _ _ _ _ _ rfl hlt hty hD
    subst hw2; subst hm2
    refine ⟨rfl, rfl, ?_, rfl⟩
    simp only [initMachine]
    omega

/-- Witness for C1 (amended): a concrete 5-byte default allocation, disposed
and then weak-fired. -/
theorem c1_single_release_witness :
    (⟨0, false, 1, [0], 1, 1⟩ : MachineState).releases = 1 ∧
    (⟨0, false, 1, [0], 1, 1⟩ : MachineState).negAdjusts = 1 ∧
    (⟨0, false, 1, [0], 1, 1⟩ : MachineState).acct = 0 ∧
    FireWeak ⟨some (none, .externalUnsignedByteArray, 0), none, false, .weakDefault (some 0)⟩
        ⟨0, false, 1, [0], 1, 1⟩ =
      .ok ({ (⟨some (none, .externalUnsignedByteArray, 0), none, false,
          .weakDefault (some 0)⟩ : WrapperState) with weak := .noReg },
        ⟨0, false, 1, [0], 1, 1⟩) :=
  c1_single_release.1 0 5 none
    ⟨some (some 0, .externalUnsignedByteArray, 5), none, false, .weakDefault (some 0)⟩
    ⟨some (none, .externalUnsignedByteArray, 0), none, false, .weakDefault (some 0)⟩
    ⟨5, false, 1, [], 0, 0⟩ ⟨0, false, 1, [0], 1, 1⟩
    (by decide) (by decide) (by decide)

/-- Counterexample for C1 as stated: in the reverse order — weak-finalization
callback first, then dispose — the same pointer 0 is freed twice
(`freed = [0, 0]`), the release policy runs twice and the accountant is
decremented twice, ending negative. -/
theorem c1_single_release_counterexample :
    AllocJS freshWrapper (initMachine 0) 5 none true =
      .ok (⟨some (some 0, .externalUnsignedByteArray, 5), none, false, .weakDefault (some 0)⟩,
           ⟨5, false, 1, [], 0, 0⟩) ∧
    FireWeak ⟨some (some 0, .externalUnsignedByteArray, 5), none, false, .weakDefault (some 0)⟩
        ⟨5, false, 1, [], 0, 0⟩ =
      .ok (⟨some (some 0, .externalUnsignedByteArray, 5), none, false, .noReg⟩,
           ⟨0, false, 1, [0], 1, 1⟩) ∧
    AllocDispose ⟨some (some 0, .externalUnsignedByteArray, 5), none, false, .noReg⟩
        ⟨0, false, 1, [0], 1, 1⟩ =
      .ok (⟨some (none, .externalUnsignedByteArray, 0), none, false, .noReg⟩,
           ⟨-5, false, 1, [0, 0], 2, 2⟩) := by decide

/-! ## Claim C8 -/

/-- Claim C8, amended.  (1) `dispose` on a wrapper with no attached buffer
does not fail with a recoverable `InvalidState`: it fails the
`assert(array_size > 0)` (an abort).  (2) On a successful default-path
dispose the slot is zeroed to `(NULL, kExternalUnsignedByteArray, 0)` — but
`hasExternalData` still reports `true` afterwards, the buffer query does NOT
report "no attached buffer" — the accountant is decremented once, a second
dispose is a silent no-op (not an `InvalidState` failure), and the weak
callback performs no further release.  (3) On a custom-callback dispose the
array-data slot is not even detached, and a second dispose dereferences the
freed `CallbackInfo`. -/
theorem c8_dispose :
    (∀ m : MachineState,
      AllocDispose freshWrapper m = .error (.contractAssert "array_size > 0")) ∧
    (∀ (a0 : Int) (n : Nat) (ty? : Option ExternalArrayType) (w1 w2 : WrapperState)
        (m1 m2 : MachineState),
      0 < n % u32 →
      AllocJS freshWrapper (initMachine a0) n ty? true = .ok (w1, m1) →
      AllocDispose w1 m1 = .ok (w2, m2) →
      w2.slot = some (none, .externalUnsignedByteArray, 0) ∧ HasExternalData w2 = true ∧
      m2.acct = a0 ∧ m2.releases = 1 ∧ m2.negAdjusts = 1 ∧
      AllocDispose w2 m2 = .ok (w2, m2) ∧
      FireWeak w2 m2 = .ok ({ w2 with weak := .noReg }, m2)) ∧
    (∀ (a0 : Int) (n : Nat) (ty : ExternalArrayType) (w1 w2 : WrapperState)
        (m1 m2 : MachineState),
      AllocCb freshWrapper (initMachine a0) n ty true = .ok (w1, m1) →
      AllocDispose w1 m1 = .ok (w2, m2) →
      w2.slot = w1.slot ∧ m2.acct = a0 ∧
      AllocDispose w2 m2 = .error .useAfterFree) := by
  refine ⟨allocDispose_fresh, ?_, ?_⟩
  · intro a0 n ty? w1 w2 m1 m2 hpos hA hD
    obtain ⟨ty, L, hty, hmax, hdvd, himp, hcase⟩ := allocJS_fresh_ok _ _ _ _ _ hA
    rcases hcase with ⟨hL0, hw1, hm1⟩ | ⟨hLpos, hw1, hm1⟩
    · exact absurd (himp hpos) (by omega)
    · subst hw1; subst hm1
      have hcpos : 0 < L / ExternalArraySize ty :=
        Nat.div_pos (Nat.le_of_dvd hLpos hdvd) hty
      have hcs : L / ExternalArraySize ty * ExternalArraySize ty = L :=
        Nat.div_mul_cancel hdvd
      have hlt : L / ExternalArraySize ty * ExternalArraySize ty < u64 := by
        rw [hcs]; simp only [kMaxLength, u64] at *; omega
      rw [allocDispose_default_pos _ _ _ _ _ _ hty hlt hcpos] at hD
      injection hD with h'
      injection h' with hw2 hm2
      subst hw2; subst hm2
      refine ⟨rfl, rfl, ?_, rfl, rfl, ?_, ?_⟩
      · simp only [initMachine]
        rw [hcs]
        omega
      · exact allocDispose_null_data _ _ _ _ (by decide)
      · exact fireWeak_after_default_dispose _ _ _
  · intro a0 n ty w1 w2 m1 m2 hA hD
    obtain ⟨hty, hmax, hw1, hm1⟩ := allocCb_fresh_ok _ _ _ _ _ hA
    subst hw1; subst hm1
    have h8 := externalArraySize_le_8 ty
    have hlt : n * ExternalArraySize ty < u64 := by
      calc n * ExternalArraySize ty ≤ n * 8 := Nat.mul_le_mul_left _ h8
        _ < u64 := by simp only [kMaxLength, u64] at *; omega
    obtain ⟨hw2, hm2⟩ := allocDispose_custom_inv _ _ _ _ _ _ _ _ rfl hlt hty hD
    subst hw2; subst hm2
    refine ⟨rfl, ?_, ?_⟩
    · simp only [initMachine]
      omega
    · exact allocDispose_dead_cb _ _ _ _ rfl

/-- Witness for C8 (amended), instantiating the default-path conjunct at a
5-byte allocation. -/
theorem c8_dispose_witness :
    (⟨some (none, .externalUnsignedByteArray, 0), none, false,
        .weakDefault (some 0)⟩ : WrapperState).slot =
      some (none, .externalUnsignedByteArray, 0) ∧
    HasExternalData ⟨some (none, .externalUnsignedByteArray, 0), none, false,
      .weakDefault (some 0)⟩ = true ∧
    (⟨0, false, 1, [0], 1, 1⟩ : MachineState).acct = 0 ∧
    (⟨0, false, 1, [0], 1, 1⟩ : MachineState).releases = 1 ∧
    (⟨0, false, 1, [0], 1, 1⟩ : MachineState).negAdjusts = 1 ∧
    AllocDispose ⟨some (none, .externalUnsignedByteArray, 0), none, false,
        .weakDefault (some 0)⟩ ⟨0, false, 1, [0], 1, 1⟩ =
      .ok (⟨some (none, .externalUnsignedByteArray, 0), none, false,
        .weakDefault (some 0)⟩, ⟨0, false, 1, [0], 1, 1⟩) ∧
    FireWeak ⟨some (none, .externalUnsignedByteArray, 0), none, false,
        .weakDefault (some 0)⟩ ⟨0, false, 1, [0], 1, 1⟩ =
      .ok ({ (⟨some (none, .externalUnsignedByteArray, 0), none, false,
          .weakDefault (some 0)⟩ : WrapperState) with weak := .noReg },
        ⟨0, false, 1, [0], 1, 1⟩) :=
  c8_dispose.2.1 0 5 none
    ⟨some (some 0, .externalUnsignedByteArray, 5), none, false, .weakDefault (some 0)⟩
    ⟨some (none, .externalUnsignedByteArray, 0), none, false, .weakDefault (some 0)⟩
    ⟨5, false, 1, [], 0, 0⟩ ⟨0, false, 1, [0], 1, 1⟩
    (by decide) (by decide) (by decide)

/-- Counterexample for C8 as stated: disposing an already-released wrapper
(the claim requires an `InvalidState` failure) succeeds silently, returning
the state unchanged. -/
theorem c8_dispose_counterexample :
    AllocDispose ⟨some (none, .externalUnsignedByteArray, 0), none, false,
        .weakDefault (some 0)⟩ ⟨0, false, 1, [0], 1, 1⟩ =
      .ok (⟨some (none, .externalUnsignedByteArray, 0), none, false,
        .weakDefault (some 0)⟩, ⟨0, false, 1, [0], 1, 1⟩) := by decide

/-! ## Claim C3 -/

/-- One successful allocate/dispose pair (either policy) leaves the
accountant where it started: the attachment adds the byte length (plus
`sizeof(CallbackInfo)` on the custom path) and the release subtracts exactly
the same amount. -/
lemma runPair_acct (m : MachineState) (r : AllocReq) (m1 : MachineState)
    (h : RunPair m r = some m1) : m1.acct = m.acct := by
  cases r with
  | defaultAlloc n ty? =>
    unfold RunPair at h
    simp only [RunAlloc] at h
    cases hA : AllocJS freshWrapper m n ty? true with
    | error e => rw [hA] at h; simp at h
    | ok p =>
      obtain ⟨w1, mA⟩ := p
      rw [hA] at h
      simp only [] at h
      obtain ⟨ty, L, hty, hmax, hdvd, _, hcase⟩ := allocJS_fresh_ok _ _ _ _ _ hA
      rcases hcase with ⟨hL0, hw1, hm1⟩ | ⟨hLpos, hw1, hm1⟩
      · subst hw1; subst hm1
        rw [allocDispose_null_data _ _ _ _ hty] at h
        simp only [Option.some.injEq] at h
        subst h
        simp [hL0]
      · subst hw1; subst hm1
        have hcpos : 0 < L / ExternalArraySize ty :=
          Nat.div_pos (Nat.le_of_dvd hLpos hdvd) hty
        have hcs : L / ExternalArraySize ty * ExternalArraySize ty = L :=
          Nat.div_mul_cancel hdvd
        have hlt : L / ExternalArraySize ty * ExternalArraySize ty < u64 := by
          rw [hcs]; simp only [kMaxLength, u64] at *; omega
        rw [allocDispose_default_pos _ _ _ _ _ _ hty hlt hcpos] at h
        simp only [Option.some.injEq] at h
        subst h
        simp only [hcs]
        simp
  | customAlloc n ty =>
    unfold RunPair at h
    simp only [RunAlloc] at h
    cases hA : AllocCb freshWrapper m n ty true with
    | error e => rw [hA] at h; simp at h
    | ok p =>
      obtain ⟨w1, mA⟩ := p
      rw [hA] at h
      simp only [] at h
      obtain ⟨hty, hmax, hw1, hm1⟩ := allocCb_fresh_ok _ _ _ _ _ hA
      subst hw1; subst hm1
      have h8 := externalArraySize_le_8 ty
      have hlt : n * ExternalArraySize ty < u64 := by
        calc n * ExternalArraySize ty ≤ n * 8 := Nat.mul_le_mul_left _ h8
          _ < u64 := by simp only [kMaxLength, u64] at *; omega
      cases hD : AllocDispose
          ⟨some (some m.nextPtr, ty, n), some (m.nextPtr + 1), true, .weakCustom⟩
          { m with usingCb := true, nextPtr := m.nextPtr + 2,
                   acct := m.acct + ((n * ExternalArraySize ty + sizeofCallbackInfo : Nat) : Int) } with
      | error e => rw [hD] at h; simp at h
      | ok q =>
        obtain ⟨w2, m2⟩ := q
        rw [hD] at h
        obtain ⟨hw2, hm2⟩ := allocDispose_custom_inv _ _ _ _ _ _ _ _ rfl hlt hty hD
        subst hw2; subst hm2
        simp only [Option.some.injEq] at h
        subst h
        simp

/-- Claim C3: for any sequence of successful allocate/dispose pairs — default
or custom-callback policy, no leaked wrappers — the accountant's running
total at the end equals its value before the sequence. -/
theorem c3_accounting (m : MachineState) (rs : List AllocReq) (mEnd : MachineState)
    (h : RunPairs m rs = some mEnd) : mEnd.acct = m.acct := by
  induction rs generalizing m with
  | nil =>
    unfold RunPairs at h
    simp only [Option.some.injEq] at h
    subst h; rfl
  | cons r rs ih =>
    unfold RunPairs at h
    cases hp : RunPair m r with
    | none => rw [hp] at h; simp at h
    | some mm =>
      rw [hp] at h
      calc mEnd.acct = mm.acct := ih mm h
        _ = m.acct := runPair_acct m r mm hp

/-- Witness for C3: a three-pair sequence (byte default, int32 custom, short
default) starting from accountant 7 ends back at 7. -/
theorem c3_accounting_witness :
    (⟨7, true, 4, [0, 3], 3, 3⟩ : MachineState).acct = (initMachine 7).acct :=
  c3_accounting (initMachine 7)
    [.defaultAlloc 3 none, .customAlloc 2 .externalIntArray,
     .defaultAlloc 6 (some .externalShortArray)]
    ⟨7, true, 4, [0, 3], 3, 3⟩ (by decide)
